import Mathlib

set_option linter.unusedVariables false

/-!
Shallow embedding of the Apple TV remote-control service
(src/services/pyatv/main.py).

The service keeps three process-wide mutable caches: `discovered_devices`
(device identifier to pyatv BaseConfig), `active_connections` (device
identifier to live AppleTV handle) and `app.state.pairing_sessions`
(device identifier to an in-flight pairing object).  We model the three
dictionaries as insertion-ordered association lists inside `ServiceState`,
a live AppleTV handle as a natural number drawn from a fresh-handle
counter, and all pyatv / network behaviour (scan, connect, probe, pairing,
metadata queries, app control) as an oracle record `Provider`.  Python
exceptions raised by the provider are `Except.error msg`; a FastAPI
`HTTPException` is `SvcError.http status detail` and an exception that
escapes uncaught is `SvcError.exc msg`.  Each endpoint function returns
its response (or error), the updated state, and a trace of externally
visible pool events (probes, closes, connection attempts, rescans).
-/

/-- A discovered device configuration (pyatv `interface.BaseConfig`):
identifier, display name, network address. -/
structure BaseConfig where
  identifier : String
  name : String
  address : String
deriving DecidableEq

/-- The pairing protocol selected in `start_pairing`
(`pyatv.const.Protocol.Companion` or `.AirPlay`). -/
inductive Protocol where
  | Companion
  | AirPlay
deriving DecidableEq

/-- The pyatv feature names consulted by the service
(`FeatureName.App`, `.LaunchApp`, `.AppList`). -/
inductive FeatureName where
  | App
  | LaunchApp
  | AppList
deriving DecidableEq

/-- An in-flight pairing object as the service observes it:
whether `pairing.pin(..)` raises, whether `await pairing.finish()` raises,
the `pairing.has_paired` flag checked afterwards, and
`pairing.service.credentials`. -/
structure PairingSession where
  pinRaises : Option String
  finishRaises : Option String
  has_paired : Bool
  credentials : String
deriving DecidableEq

/-- The metadata object returned by `await playing()`, with enum-valued
fields already rendered the way the service renders them (`str(..)` on a
truthy value, absent otherwise). -/
structure PlayingData where
  title : Option String
  artist : Option String
  album : Option String
  genre : Option String
  media_type : Option String
  device_state : Option String
  position : Option Int
  total_time : Option Int
  repeat_mode : Option String
  shuffle : Option String
deriving DecidableEq

/-- An app entry returned by `await playing.app()` or `atv.apps.app_list()`. -/
structure AppInfo where
  name : String
  identifier : String
deriving DecidableEq

/-- Mirror of the `NowPlayingInfo` pydantic model with its defaults. -/
structure NowPlayingInfo where
  device_id : String
  title : Option String := none
  artist : Option String := none
  album : Option String := none
  genre : Option String := none
  media_type : Option String := none
  device_state : String := "unknown"
  position : Option Int := none
  total_time : Option Int := none
  repeat_mode : Option String := none
  shuffle : Option String := none
  app_name : Option String := none
  app_id : Option String := none
deriving DecidableEq

/-- Mirror of the `DeviceInfo` pydantic model with its defaults. -/
structure DeviceInfo where
  id : String
  name : String
  address : String
  model : Option String := none
  os_version : Option String := none
  is_connected : Bool := false
deriving DecidableEq

/-- An error escaping an endpoint: a raised `HTTPException` carrying a
status code and detail string, or an uncaught provider exception. -/
inductive SvcError where
  | http (status : Nat) (detail : String)
  | exc (msg : String)
deriving DecidableEq

/-- Externally visible connection-pool events: a liveness probe of a
pooled handle, a `close()` call on a handle, a successful or failed
`pyatv.connect`, and a network rescan triggered inside the pool. -/
inductive Event where
  | probe (h : Nat)
  | close (h : Nat)
  | connectOk (id : String) (h : Nat)
  | connectFail (id : String)
  | scanEv
deriving DecidableEq

/-- The three process-wide caches plus the fresh-handle counter:
`discovered` is `discovered_devices`, `active` is `active_connections`
(handles are numbered), `pairings` is `app.state.pairing_sessions`. -/
structure ServiceState where
  discovered : List (String × BaseConfig)
  active : List (String × Nat)
  pairings : List (String × PairingSession)
  nextHandle : Nat
deriving DecidableEq

/-- Environment oracle for everything pyatv does on the network: probing
a handle (`atv.device_info` access), closing it, scanning, connecting,
starting a pairing handshake, remote-control method lookup and
invocation, feature availability, metadata queries and app control. -/
structure Provider where
  probe : Nat → Except String Unit
  close : Nat → Except String Unit
  scan : Except String (List BaseConfig)
  connect : BaseConfig → Except String Unit
  pairBegin : BaseConfig → Protocol → Except String PairingSession
  hasMethod : Nat → String → Bool
  invoke : Nat → String → Except String Unit
  featureAvailable : Nat → FeatureName → Bool
  queryPlaying : Nat → Except String PlayingData
  queryApp : Nat → Except String (Option AppInfo)
  launchApp : Nat → String → Except String Unit
  appList : Nat → Except String (List AppInfo)

/-- Python dict lookup `d[k]` / `k in d` on an association list. -/
def lookupA {α : Type} (k : String) : List (String × α) → Option α
  | [] => none
  | pr :: rest => if pr.1 = k then some pr.2 else lookupA k rest

/-- Python dict assignment `d[k] = v`: replace in place if present,
append otherwise. -/
def insertA {α : Type} (k : String) (v : α) : List (String × α) → List (String × α)
  | [] => [(k, v)]
  | pr :: rest => if pr.1 = k then (k, v) :: rest else pr :: insertA k v rest

/-- Python dict deletion `del d[k]`. -/
def eraseA {α : Type} (k : String) : List (String × α) → List (String × α)
  | [] => []
  | pr :: rest => if pr.1 = k then eraseA k rest else pr :: eraseA k rest

/-- The string FastAPI renders for `str(HTTPException(status, detail))`. -/
def str_of_http_exception (status : Nat) (detail : String) : String :=
  toString status ++ ": " ++ detail

/-- Lines 112-126 of the source: after any needed rescan, look the device
up in `discovered_devices` (404 if still unknown) and call
`pyatv.connect`; on success store the new handle in `active_connections`,
on failure raise 500 without storing anything. -/
def connect_step (p : Provider) (device_id : String) (s : ServiceState)
    (tr : List Event) : Except SvcError Nat × ServiceState × List Event :=
  match lookupA device_id s.discovered with
  | none =>
    (Except.error (SvcError.http 404 ("Apple TV " ++ device_id ++ " not found")), s, tr)
  | some config =>
    match p.connect config with
    | Except.ok _ =>
      (Except.ok s.nextHandle,
       { s with active := insertA device_id s.nextHandle s.active,
                nextHandle := s.nextHandle + 1 },
       tr ++ [Event.connectOk device_id s.nextHandle])
    | Except.error m =>
      (Except.error (SvcError.http 500 ("Failed to connect: " ++ m)), s,
       tr ++ [Event.connectFail device_id])

/-- Lines 105-126 of the source: if the device is not in
`discovered_devices`, rescan and merge the results (additively) into the
cache — a scan exception here is uncaught and escapes — then connect. -/
def connect_phase (p : Provider) (device_id : String) (s : ServiceState) :
    Except SvcError Nat × ServiceState × List Event :=
  if (lookupA device_id s.discovered).isSome then
    connect_step p device_id s []
  else
    match p.scan with
    | Except.error m => (Except.error (SvcError.exc m), s, [Event.scanEv])
    | Except.ok devs =>
      connect_step p device_id
        { s with discovered :=
            devs.foldl (fun d c => insertA c.identifier c d) s.discovered }
        [Event.scanEv]

/-- `get_or_create_connection` (lines 85-126): under the connection lock,
if a pooled handle exists probe it by reading `atv.device_info`; return
it on success, otherwise close the stale handle (ignoring close errors),
delete its pool entry, and fall through to the connect phase. -/
def get_or_create_connection (p : Provider) (device_id : String)
    (s : ServiceState) : Except SvcError Nat × ServiceState × List Event :=
  match lookupA device_id s.active with
  | some atv =>
    match p.probe atv with
    | Except.ok _ => (Except.ok atv, s, [Event.probe atv])
    | Except.error _ =>
      let r := connect_phase p device_id { s with active := eraseA device_id s.active }
      (r.1, r.2.1, Event.probe atv :: Event.close atv :: r.2.2)
  | none => connect_phase p device_id s

/-- `close_all_connections` (lines 129-138): close every pooled handle,
logging and swallowing any close exception, then clear the pool. -/
def close_all_connections (p : Provider) (s : ServiceState) :
    ServiceState × List Event :=
  ({ s with active := [] },
   s.active.map (fun pr =>
     match p.close pr.2 with
     | Except.ok _ => Event.close pr.2
     | Except.error _ => Event.close pr.2))

/-- `list_devices` (lines 183-194): one `DeviceInfo` per cached device,
`is_connected` telling whether the pool has an entry for it. -/
def list_devices (s : ServiceState) : List DeviceInfo :=
  s.discovered.map (fun pr =>
    { id := pr.1, name := pr.2.name, address := pr.2.address,
      is_connected := (lookupA pr.1 s.active).isSome })

/-- The `DeviceInfo` built for one scanned device in `rescan_devices`. -/
def mkScanInfo (c : BaseConfig) (active : List (String × Nat)) : DeviceInfo :=
  { id := c.identifier, name := c.name, address := c.address,
    is_connected := (lookupA c.identifier active).isSome }

/-- `rescan_devices` (lines 197-218): scan, and on success clear
`discovered_devices` and repopulate it from the scan, leaving
`active_connections` untouched; a scan exception becomes a 500. -/
def rescan_devices (p : Provider) (s : ServiceState) :
    Except SvcError (List DeviceInfo) × ServiceState :=
  match p.scan with
  | Except.error m => (Except.error (SvcError.http 500 ("Scan failed: " ++ m)), s)
  | Except.ok devs =>
    (Except.ok (devs.map (fun c => mkScanInfo c s.active)),
     { s with discovered := devs.foldl (fun d c => insertA c.identifier c d) [] })

/-- Response of `start_pairing`. -/
structure StartPairingResponse where
  message : String
  protocol : String
  requires_pin : Bool
deriving DecidableEq

/-- `start_pairing` (lines 253-286): 404 if the device is unknown, else
choose the protocol, ask the provider to begin a pairing handshake
(`pyatv.pair` + `pairing.begin()`, any exception becoming a 500), store
the session keyed by device id, and tell the caller a PIN is required. -/
def start_pairing (p : Provider) (device_id : String) (protocol : String)
    (s : ServiceState) : Except SvcError StartPairingResponse × ServiceState :=
  match lookupA device_id s.discovered with
  | none => (Except.error (SvcError.http 404 "Device not found"), s)
  | some config =>
    let proto := if protocol.toLower = "companion" then Protocol.Companion
                 else Protocol.AirPlay
    match p.pairBegin config proto with
    | Except.error m =>
      (Except.error (SvcError.http 500 ("Pairing failed: " ++ m)), s)
    | Except.ok pairing =>
      (Except.ok
        { message := "Pairing started with " ++ protocol ++
            " protocol. Enter the PIN shown on your Apple TV.",
          protocol := protocol, requires_pin := true },
       { s with pairings := insertA device_id pairing s.pairings })

/-- Response of `finish_pairing`. -/
structure FinishPairingResponse where
  message : String
  credentials : String
deriving DecidableEq

/-- `finish_pairing` (lines 289-316): 400 if no session is stored for the
id; otherwise submit the PIN and run `pairing.finish()` inside a
`try` whose `except Exception` turns any raise into a 500.  When
`pairing.has_paired` holds, the session is deleted and the credentials
returned; when it does not, the `HTTPException(400, "Pairing not
completed")` raised there is itself caught by the same `except Exception`
and re-raised as a 500 — and the session is NOT deleted on that path. -/
def finish_pairing (device_id : String) (pin : String) (s : ServiceState) :
    Except SvcError FinishPairingResponse × ServiceState :=
  match lookupA device_id s.pairings with
  | none => (Except.error (SvcError.http 400 "No active pairing session"), s)
  | some pairing =>
    match pairing.pinRaises with
    | some m => (Except.error (SvcError.http 500 ("Pairing failed: " ++ m)), s)
    | none =>
      match pairing.finishRaises with
      | some m => (Except.error (SvcError.http 500 ("Pairing failed: " ++ m)), s)
      | none =>
        if pairing.has_paired then
          (Except.ok { message := "Pairing successful",
                       credentials := pairing.credentials },
           { s with pairings := eraseA device_id s.pairings })
        else
          (Except.error (SvcError.http 500 ("Pairing failed: " ++
             str_of_http_exception 400 "Pairing not completed")), s)

/-- The static command catalog of `send_remote_command` (lines 339-363),
mapping command strings to remote-control method names. -/
def command_names : List (String × String) :=
  [("up", "up"), ("down", "down"), ("left", "left"), ("right", "right"),
   ("select", "select"), ("menu", "menu"), ("home", "home"),
   ("top_menu", "top_menu"),
   ("play", "play"), ("pause", "pause"), ("play_pause", "play_pause"),
   ("stop", "stop"), ("next", "next"), ("previous", "previous"),
   ("skip_forward", "skip_forward"), ("skip_backward", "skip_backward"),
   ("volume_up", "volume_up"), ("volume_down", "volume_down")]

/-- Response of `send_remote_command`. -/
structure SendResponse where
  success : Bool
  command : String
deriving DecidableEq

/-- `send_remote_command` (lines 323-386): acquire a connection FIRST,
then validate the command against the catalog (400 listing the valid set
if unknown), then look the method up on the remote-control surface (400
if the device lacks it), then invoke it (500 on provider failure). -/
def send_remote_command (p : Provider) (device_id : String) (command : String)
    (s : ServiceState) : Except SvcError SendResponse × ServiceState × List Event :=
  match get_or_create_connection p device_id s with
  | (Except.error e, s1, tr) => (Except.error e, s1, tr)
  | (Except.ok atv, s1, tr) =>
    match lookupA command command_names with
    | none =>
      (Except.error (SvcError.http 400 ("Unknown command: " ++ command ++
         ". Available: " ++ String.intercalate ", " (command_names.map Prod.fst))),
       s1, tr)
    | some method_name =>
      if p.hasMethod atv method_name then
        match p.invoke atv method_name with
        | Except.ok _ => (Except.ok { success := true, command := command }, s1, tr)
        | Except.error m =>
          (Except.error (SvcError.http 500 ("Command failed: " ++ m)), s1, tr)
      else
        (Except.error (SvcError.http 400 ("Command \x27" ++ command ++
           "\x27 not supported by this Apple TV")), s1, tr)

/-- The playback sub-query of `get_now_playing` (lines 406-420): fill the
playback fields from `await playing.playing()`, or leave the snapshot
untouched when that query raises. -/
def playing_step (p : Provider) (atv : Nat) (result : NowPlayingInfo) :
    NowPlayingInfo :=
  match p.queryPlaying atv with
  | Except.error _ => result
  | Except.ok current =>
    { result with
      title := current.title, artist := current.artist,
      album := current.album, genre := current.genre,
      media_type := current.media_type,
      device_state := current.device_state.getD "unknown",
      position := current.position, total_time := current.total_time,
      repeat_mode := current.repeat_mode, shuffle := current.shuffle }

/-- The app sub-query of `get_now_playing` (lines 422-430): only when the
`App` feature is available, query the running app and fill the app
fields; a raise leaves the snapshot untouched. -/
def app_step (p : Provider) (atv : Nat) (result : NowPlayingInfo) :
    NowPlayingInfo :=
  if p.featureAvailable atv FeatureName.App then
    match p.queryApp atv with
    | Except.error _ => result
    | Except.ok none => result
    | Except.ok (some a) =>
      { result with app_name := some a.name, app_id := some a.identifier }
  else result

/-- `get_now_playing` (lines 393-435): acquire a connection, then build a
snapshot whose playback and app portions each degrade independently to
absent fields when their sub-query raises. -/
def get_now_playing (p : Provider) (device_id : String) (s : ServiceState) :
    Except SvcError NowPlayingInfo × ServiceState × List Event :=
  match get_or_create_connection p device_id s with
  | (Except.error e, s1, tr) => (Except.error e, s1, tr)
  | (Except.ok atv, s1, tr) =>
    (Except.ok (app_step p atv (playing_step p atv { device_id := device_id })),
     s1, tr)

/-- Response of `launch_app`. -/
structure LaunchResponse where
  success : Bool
  app_id : String
deriving DecidableEq

/-- `launch_app` (lines 442-457): acquire a connection; when the
`LaunchApp` feature is unavailable raise 400 (re-raised unchanged by the
`except HTTPException` arm), otherwise launch (500 on provider failure). -/
def launch_app (p : Provider) (device_id : String) (app_id : String)
    (s : ServiceState) : Except SvcError LaunchResponse × ServiceState × List Event :=
  match get_or_create_connection p device_id s with
  | (Except.error e, s1, tr) => (Except.error e, s1, tr)
  | (Except.ok atv, s1, tr) =>
    if p.featureAvailable atv FeatureName.LaunchApp then
      match p.launchApp atv app_id with
      | Except.ok _ => (Except.ok { success := true, app_id := app_id }, s1, tr)
      | Except.error m =>
        (Except.error (SvcError.http 500 ("Failed to launch app: " ++ m)), s1, tr)
    else
      (Except.error (SvcError.http 400 "App launching not supported"), s1, tr)

/-- An app entry in the `list_apps` response. -/
structure AppEntry where
  id : String
  name : String
deriving DecidableEq

/-- Response of `list_apps`; the success branch carries no message. -/
structure AppsResponse where
  apps : List AppEntry
  message : Option String := none
deriving DecidableEq

/-- `list_apps` (lines 460-473): acquire a connection; when the `AppList`
feature is unavailable return SUCCESS with an empty list and an
explanatory message, otherwise query the app list (500 on failure). -/
def list_apps (p : Provider) (device_id : String) (s : ServiceState) :
    Except SvcError AppsResponse × ServiceState × List Event :=
  match get_or_create_connection p device_id s with
  | (Except.error e, s1, tr) => (Except.error e, s1, tr)
  | (Except.ok atv, s1, tr) =>
    if p.featureAvailable atv FeatureName.AppList then
      match p.appList atv with
      | Except.ok apps =>
        (Except.ok { apps := apps.map (fun a => { id := a.identifier, name := a.name }) },
         s1, tr)
      | Except.error m =>
        (Except.error (SvcError.http 500 ("Failed to list apps: " ++ m)), s1, tr)
    else
      (Except.ok { apps := [],
                   message := some "App listing not supported on this device" },
       s1, tr)

/-- A sequence of `acquire` calls on the same identifier with no
intervening release: each call threads the state to the next, collecting
every call result along the way. -/
def acquireSeq : List Provider → String → ServiceState →
    List (Except SvcError Nat × ServiceState × List Event) × ServiceState
  | [], _, s => ([], s)
  | p :: ps, id, s =>
    let r := get_or_create_connection p id s
    let rest := acquireSeq ps id r.2.1
    (r :: rest.1, rest.2)

/-- Looking up the key just inserted finds the inserted value. -/
theorem lookupA_insertA_self {α : Type} (k : String) (v : α)
    (l : List (String × α)) : lookupA k (insertA k v l) = some v := by
  induction l with
  | nil => simp [insertA, lookupA]
  | cons pr rest ih =>
    by_cases hpk : pr.1 = k
    · simp [insertA, hpk, lookupA]
    · simp [insertA, hpk, lookupA, ih]

/-- Looking up a key just deleted finds nothing. -/
theorem lookupA_eraseA_self {α : Type} (k : String)
    (l : List (String × α)) : lookupA k (eraseA k l) = none := by
  induction l with
  | nil => simp [eraseA, lookupA]
  | cons pr rest ih =>
    by_cases hpk : pr.1 = k
    · simp [eraseA, hpk, ih]
    · simp [eraseA, hpk, lookupA, ih]

/-- A key the lookup misses has no entry at all in the list. -/
theorem filter_key_nil_of_lookupA_none {α : Type} (k : String)
    (l : List (String × α)) (h : lookupA k l = none) :
    l.filter (fun pr => pr.1 == k) = [] := by
  induction l with
  | nil => rfl
  | cons pr rest ih =>
    by_cases hpk : pr.1 = k
    · simp [lookupA, hpk] at h
    · simp [lookupA, hpk] at h
      simp [List.filter_cons, hpk, ih h]

/-- A lookup that misses the first list skips over it in a concatenation. -/
theorem lookupA_append_none {α : Type} (k : String)
    (l1 l2 : List (String × α)) (h : lookupA k l1 = none) :
    lookupA k (l1 ++ l2) = lookupA k l2 := by
  induction l1 with
  | nil => simp
  | cons pr rest ih =>
    by_cases hpk : pr.1 = k
    · simp [lookupA, hpk] at h
    · simp [lookupA, hpk] at h ⊢
      exact ih h

/-- Inserting an absent key appends the pair at the end. -/
theorem insertA_of_lookupA_none {α : Type} (k : String) (v : α)
    (l : List (String × α)) (h : lookupA k l = none) :
    insertA k v l = l ++ [(k, v)] := by
  induction l with
  | nil => simp [insertA]
  | cons pr rest ih =>
    by_cases hpk : pr.1 = k
    · simp [lookupA, hpk] at h
    · simp [insertA, hpk, lookupA] at h ⊢
      exact ih h

/-- When a successful connect step reports a handle, the handle is the
fresh-counter value, it was stored in the pool, and exactly one
connect event was appended to the trace. -/
theorem connect_step_ok (p : Provider) (id : String) (s : ServiceState)
    (tr0 tr : List Event) (h : Nat) (s1 : ServiceState)
    (heq : connect_step p id s tr0 = (Except.ok h, s1, tr)) :
    h = s.nextHandle ∧
    s1 = { s with active := insertA id s.nextHandle s.active,
                  nextHandle := s.nextHandle + 1 } ∧
    tr = tr0 ++ [Event.connectOk id s.nextHandle] := by
  unfold connect_step at heq
  split at heq
  · simp at heq
  · split at heq
    · simp only [Prod.mk.injEq, Except.ok.injEq] at heq
      exact ⟨heq.1.symm, heq.2.1.symm, heq.2.2.symm⟩
    · simp at heq

/-- When the connect phase reports a handle, the handle is the
fresh-counter value of the entry state, the pool gained exactly that
entry, the pairing sessions are untouched, and the trace is one connect
event optionally preceded by a rescan. -/
theorem connect_phase_ok (p : Provider) (id : String) (s : ServiceState)
    (h : Nat) (s1 : ServiceState) (tr : List Event)
    (heq : connect_phase p id s = (Except.ok h, s1, tr)) :
    h = s.nextHandle ∧
    s1.active = insertA id s.nextHandle s.active ∧
    s1.nextHandle = s.nextHandle + 1 ∧
    s1.pairings = s.pairings ∧
    (tr = [Event.connectOk id s.nextHandle] ∨
     tr = [Event.scanEv, Event.connectOk id s.nextHandle]) := by
  unfold connect_phase at heq
  split at heq
  · obtain ⟨h1, h2, h3⟩ := connect_step_ok p id s [] tr h s1 heq
    subst h2
    exact ⟨h1, rfl, rfl, rfl, Or.inl (by simp [h3])⟩
  · split at heq
    · simp at heq
    · obtain ⟨h1, h2, h3⟩ := connect_step_ok p id _ [Event.scanEv] tr h s1 heq
      subst h2
      exact ⟨h1, rfl, rfl, rfl, Or.inr (by simp [h3])⟩

/-- An acquire that finds a pooled handle whose probe succeeds returns it
with the state unchanged and only a probe event. -/
theorem acquire_live (p : Provider) (id : String) (s : ServiceState) (h : Nat)
    (hl : lookupA id s.active = some h) (hp : p.probe h = Except.ok ()) :
    get_or_create_connection p id s = (Except.ok h, s, [Event.probe h]) := by
  simp [get_or_create_connection, hl, hp]

/-- Every acquire in a sequence that keeps probing a live handle
successfully returns that handle and leaves the state untouched. -/
theorem acquireSeq_live (ps : List Provider) (id : String) (s : ServiceState)
    (h : Nat) (hl : lookupA id s.active = some h)
    (hp : ∀ q ∈ ps, q.probe h = Except.ok ()) :
    acquireSeq ps id s =
      (ps.map (fun _ => (Except.ok h, s, [Event.probe h])), s) := by
  induction ps with
  | nil => rfl
  | cons q qs ih =>
    have h1 := acquire_live q id s h hl (hp q (by simp))
    simp [acquireSeq, h1, ih (fun r hr => hp r (by simp [hr]))]

/-- A sample scanned device. -/
def cfg1 : BaseConfig :=
  { identifier := "d1", name := "Living Room", address := "10.0.0.5" }

/-- A second sample device, known before a rescan. -/
def cfgOld : BaseConfig :=
  { identifier := "old", name := "Old TV", address := "10.0.0.9" }

/-- A sample playback metadata result. -/
def samplePlaying : PlayingData :=
  { title := some "Song", artist := some "Band", album := some "Album",
    genre := some "Rock", media_type := some "MediaType.Music",
    device_state := some "DeviceState.Playing", position := some 10,
    total_time := some 200, repeat_mode := some "RepeatState.Off",
    shuffle := some "ShuffleState.Off" }

/-- A pairing session whose handshake reports success. -/
def sampleSession : PairingSession :=
  { pinRaises := none, finishRaises := none, has_paired := true,
    credentials := "creds-abc" }

/-- A pairing session whose finish step completes without raising but
reports the handshake as not paired. -/
def incompleteSession : PairingSession :=
  { pinRaises := none, finishRaises := none, has_paired := false,
    credentials := "" }

/-- A provider on which every network operation succeeds. -/
def provAllOk : Provider :=
  { probe := fun _ => Except.ok (), close := fun _ => Except.ok (),
    scan := Except.ok [cfg1], connect := fun _ => Except.ok (),
    pairBegin := fun _ _ => Except.ok sampleSession,
    hasMethod := fun _ _ => true, invoke := fun _ _ => Except.ok (),
    featureAvailable := fun _ _ => true,
    queryPlaying := fun _ => Except.ok samplePlaying,
    queryApp := fun _ =>
      Except.ok (some { name := "Netflix", identifier := "com.netflix.Netflix" }),
    launchApp := fun _ _ => Except.ok (),
    appList := fun _ => Except.ok [] }

/-- State with one discovered device and an empty connection pool. -/
def s_d1 : ServiceState :=
  { discovered := [("d1", cfg1)], active := [], pairings := [], nextHandle := 0 }

/-- State after the first successful acquire of `"d1"` from `s_d1`. -/
def s_d1_connected : ServiceState :=
  { discovered := [("d1", cfg1)], active := [("d1", 0)], pairings := [],
    nextHandle := 1 }

/-- C1 counterexample: sending the unknown command name `"bogus"` to a
known but not-yet-connected device does NOT fail without attempting any
connection — the call emits a connect event and creates a pool entry for
the device before failing with the unknown-command error, so the claim
that no pool entry is probed, created, or removed is false here. -/
theorem C1_counterexample :
    (send_remote_command provAllOk "d1" "bogus" s_d1).2.2 =
      [Event.connectOk "d1" 0] ∧
    (send_remote_command provAllOk "d1" "bogus" s_d1).2.1.active = [("d1", 0)] ∧
    s_d1.active = [] :=
  ⟨rfl, rfl, rfl⟩

/-- C1 (amended): for every device identifier and command name not in the
static catalog, `send_remote_command` first acquires a connection —
probing, creating or removing pool entries and possibly triggering a
rescan exactly as the acquire step does — and only then, when
acquisition succeeded, fails with the unknown-command error whose
message enumerates the valid command set; when acquisition fails, the
acquisition error is surfaced instead. -/
theorem C1_unknown_command_after_acquire (p : Provider)
    (device_id command : String) (s : ServiceState)
    (hcmd : lookupA command command_names = none) :
    (∀ h s1 tr, get_or_create_connection p device_id s = (Except.ok h, s1, tr) →
      send_remote_command p device_id command s =
        (Except.error (SvcError.http 400 ("Unknown command: " ++ command ++
           ". Available: " ++
           String.intercalate ", " (command_names.map Prod.fst))), s1, tr)) ∧
    (∀ e s1 tr,
      get_or_create_connection p device_id s = (Except.error e, s1, tr) →
      send_remote_command p device_id command s = (Except.error e, s1, tr)) := by
  constructor
  · intro h s1 tr hacq
    simp [send_remote_command, hacq, hcmd]
  · intro e s1 tr hacq
    simp [send_remote_command, hacq]

/-- Witness for C1: the amended statement evaluated on the sample device
with the unknown command `"bogus"`. -/
theorem C1_unknown_command_witness :
    lookupA "bogus" command_names = none ∧
    send_remote_command provAllOk "d1" "bogus" s_d1 =
      (Except.error (SvcError.http 400 ("Unknown command: " ++ "bogus" ++
         ". Available: " ++
         String.intercalate ", " (command_names.map Prod.fst))),
       s_d1_connected, [Event.connectOk "d1" 0]) :=
  ⟨rfl,
   (C1_unknown_command_after_acquire provAllOk "d1" "bogus" s_d1 rfl).1
     0 s_d1_connected [Event.connectOk "d1" 0] rfl⟩

/-- State with an active pairing session whose handshake is incomplete. -/
def s_c2 : ServiceState :=
  { discovered := [("d1", cfg1)], active := [],
    pairings := [("d1", incompleteSession)], nextHandle := 0 }

/-- C2 counterexample: when the finish step completes but the provider
reports the handshake as not paired, the session is NOT deleted — it is
still stored afterwards — and a second `finish_pairing` call fails with
the same 500 pairing-failed error rather than the 400 no-active-session
error, so both halves of the claim are false here. -/
theorem C2_counterexample :
    (finish_pairing "d1" "1234" s_c2).2.pairings = [("d1", incompleteSession)] ∧
    (finish_pairing "d1" "1234" (finish_pairing "d1" "1234" s_c2).2).1 =
      Except.error (SvcError.http 500 "Pairing failed: 400: Pairing not completed") ∧
    (Except.error (SvcError.http 500 "Pairing failed: 400: Pairing not completed") ≠
      (Except.error (SvcError.http 400 "No active pairing session") :
        Except SvcError FinishPairingResponse)) :=
  ⟨rfl, rfl, by simp⟩

/-- C2 (amended): for every identifier with an active pairing session,
when the PIN submission and the provider finish step complete but the
provider reports the handshake as not successfully paired, the call
fails — the 400 pairing-not-completed error is caught by the blanket
exception handler and re-raised as a 500 pairing-failed error — and the
pairing session for the identifier is NOT deleted: the state is returned
unchanged, so a subsequent `finish_pairing` retries the same stored
session instead of failing with the no-active-session error. -/
theorem C2_incomplete_keeps_session (device_id pin : String)
    (s : ServiceState) (pr : PairingSession)
    (hs : lookupA device_id s.pairings = some pr)
    (hpin : pr.pinRaises = none) (hfin : pr.finishRaises = none)
    (hp : pr.has_paired = false) :
    finish_pairing device_id pin s =
      (Except.error (SvcError.http 500 ("Pairing failed: " ++
         str_of_http_exception 400 "Pairing not completed")), s) := by
  simp [finish_pairing, hs, hpin, hfin, hp]

/-- Witness for C2: the amended statement evaluated on the sample
incomplete session. -/
theorem C2_incomplete_witness :
    lookupA "d1" s_c2.pairings = some incompleteSession ∧
    finish_pairing "d1" "1234" s_c2 =
      (Except.error (SvcError.http 500 ("Pairing failed: " ++
         str_of_http_exception 400 "Pairing not completed")), s_c2) :=
  ⟨rfl, C2_incomplete_keeps_session "d1" "1234" s_c2 incompleteSession
    rfl rfl rfl rfl⟩

/-- C3: starting from a state with no pooled entry for the identifier, a
first successful acquire followed by any sequence of further acquires
whose liveness probes all succeed creates exactly one handle — one
connect event in the first trace and none afterwards — returns that same
handle from every call with the state unchanged, and throughout keeps
exactly one pool entry for the identifier. -/
theorem C3_acquire_idempotent (p : Provider) (ps : List Provider)
    (id : String) (s0 : ServiceState) (h : Nat) (s1 : ServiceState)
    (tr : List Event)
    (hnone : lookupA id s0.active = none)
    (hfirst : get_or_create_connection p id s0 = (Except.ok h, s1, tr))
    (hprobe : ∀ q ∈ ps, q.probe h = Except.ok ()) :
    tr.count (Event.connectOk id h) = 1 ∧
    lookupA id s1.active = some h ∧
    s1.active.filter (fun pr => pr.1 == id) = [(id, h)] ∧
    acquireSeq ps id s1 =
      (ps.map (fun _ => (Except.ok h, s1, [Event.probe h])), s1) := by
  have hacq : connect_phase p id s0 = (Except.ok h, s1, tr) := by
    unfold get_or_create_connection at hfirst
    rw [hnone] at hfirst
    exact hfirst
  obtain ⟨h1, h2, h3, h4, h5⟩ := connect_phase_ok p id s0 h s1 tr hacq
  subst h1
  have hl : lookupA id s1.active = some s0.nextHandle := by
    rw [h2]
    exact lookupA_insertA_self id s0.nextHandle s0.active
  refine ⟨?_, hl, ?_, acquireSeq_live ps id s1 s0.nextHandle hl hprobe⟩
  · rcases h5 with h5 | h5 <;> subst h5 <;>
      simp [List.count_cons]
  · rw [h2, insertA_of_lookupA_none id s0.nextHandle s0.active hnone,
        List.filter_append, filter_key_nil_of_lookupA_none id s0.active hnone]
    simp [List.filter_cons]

/-- Witness for C3: two further acquires after the first one on the
sample device, all probes succeeding. -/
theorem C3_acquire_idempotent_witness :
    lookupA "d1" s_d1.active = none ∧
    ([Event.connectOk "d1" 0].count (Event.connectOk "d1" 0) = 1 ∧
     lookupA "d1" s_d1_connected.active = some 0 ∧
     s_d1_connected.active.filter (fun pr => pr.1 == "d1") = [("d1", 0)] ∧
     acquireSeq [provAllOk, provAllOk] "d1" s_d1_connected =
       ([(Except.ok 0, s_d1_connected, [Event.probe 0]),
         (Except.ok 0, s_d1_connected, [Event.probe 0])], s_d1_connected)) :=
  ⟨rfl,
   C3_acquire_idempotent provAllOk [provAllOk, provAllOk] "d1" s_d1 0
     s_d1_connected [Event.connectOk "d1" 0] rfl rfl
     (by intro q hq; simp at hq; subst hq; rfl)⟩

/-- C4: an acquire that finds a pooled handle failing its liveness probe
closes that stale handle and removes its pool entry before falling
through to the reconnect phase, and the stale handle is never the one
returned: any successfully returned handle differs from it. -/
theorem C4_stale_closed_and_replaced (p : Provider) (id : String)
    (s : ServiceState) (h : Nat) (m : String)
    (hl : lookupA id s.active = some h)
    (hp : p.probe h = Except.error m)
    (hfresh : h < s.nextHandle) :
    get_or_create_connection p id s =
      ((connect_phase p id { s with active := eraseA id s.active }).1,
       (connect_phase p id { s with active := eraseA id s.active }).2.1,
       Event.probe h :: Event.close h ::
         (connect_phase p id { s with active := eraseA id s.active }).2.2) ∧
    (∀ h2 s1 tr,
      get_or_create_connection p id s = (Except.ok h2, s1, tr) → h2 ≠ h) := by
  have h1 : get_or_create_connection p id s =
      ((connect_phase p id { s with active := eraseA id s.active }).1,
       (connect_phase p id { s with active := eraseA id s.active }).2.1,
       Event.probe h :: Event.close h ::
         (connect_phase p id { s with active := eraseA id s.active }).2.2) := by
    simp [get_or_create_connection, hl, hp]
  refine ⟨h1, ?_⟩
  intro h2 s1 tr heq
  rw [h1] at heq
  have he2 : (connect_phase p id { s with active := eraseA id s.active }).1 =
      Except.ok h2 := congrArg Prod.fst heq
  have hcp : connect_phase p id { s with active := eraseA id s.active } =
      (Except.ok h2,
       (connect_phase p id { s with active := eraseA id s.active }).2.1,
       (connect_phase p id { s with active := eraseA id s.active }).2.2) := by
    rw [← he2]
  obtain ⟨hh, _, _, _, _⟩ := connect_phase_ok p id _ h2 _ _ hcp
  intro hc
  rw [hc] at hh
  simp at hh
  omega

/-- Provider whose probe of handle 0 reports the connection stale. -/
def provStale : Provider :=
  { provAllOk with
    probe := fun h => if h = 0 then Except.error "stale" else Except.ok () }

/-- Witness for C4: acquiring the sample device whose pooled handle 0
fails its probe. -/
theorem C4_stale_witness :
    lookupA "d1" s_d1_connected.active = some 0 ∧
    provStale.probe 0 = Except.error "stale" ∧
    (get_or_create_connection provStale "d1" s_d1_connected =
      ((connect_phase provStale "d1"
          { s_d1_connected with active := eraseA "d1" s_d1_connected.active }).1,
       (connect_phase provStale "d1"
          { s_d1_connected with active := eraseA "d1" s_d1_connected.active }).2.1,
       Event.probe 0 :: Event.close 0 ::
         (connect_phase provStale "d1"
           { s_d1_connected with active := eraseA "d1" s_d1_connected.active }).2.2) ∧
     (∀ h2 s1 tr,
       get_or_create_connection provStale "d1" s_d1_connected =
         (Except.ok h2, s1, tr) → h2 ≠ 0)) :=
  ⟨rfl, rfl,
   C4_stale_closed_and_replaced provStale "d1" s_d1_connected 0 "stale"
     rfl rfl (by decide)⟩

/-- C5: for an identifier known to the registry with no pooled entry, a
failed provider connect surfaces a 500 connection error and leaves the
whole state unchanged — in particular no pool entry is stored — so a
later acquire with a working provider attempts a fresh connect and only
then stores a handle. -/
theorem C5_failed_connect_not_cached (p p2 : Provider) (id : String)
    (cfg : BaseConfig) (s : ServiceState) (m : String)
    (hreg : lookupA id s.discovered = some cfg)
    (hnone : lookupA id s.active = none)
    (hconn : p.connect cfg = Except.error m) :
    get_or_create_connection p id s =
      (Except.error (SvcError.http 500 ("Failed to connect: " ++ m)), s,
       [Event.connectFail id]) ∧
    (p2.connect cfg = Except.ok () →
      get_or_create_connection p2 id s =
        (Except.ok s.nextHandle,
         { s with active := insertA id s.nextHandle s.active,
                  nextHandle := s.nextHandle + 1 },
         [Event.connectOk id s.nextHandle])) := by
  constructor
  · simp [get_or_create_connection, connect_phase, connect_step, hnone, hreg, hconn]
  · intro h2
    simp [get_or_create_connection, connect_phase, connect_step, hnone, hreg, h2]

/-- Provider whose connect attempt always fails. -/
def provConnFail : Provider :=
  { provAllOk with connect := fun _ => Except.error "boom" }

/-- Witness for C5: a failed connect to the sample device followed by a
successful one. -/
theorem C5_failed_connect_witness :
    lookupA "d1" s_d1.discovered = some cfg1 ∧
    lookupA "d1" s_d1.active = none ∧
    provConnFail.connect cfg1 = Except.error "boom" ∧
    (get_or_create_connection provConnFail "d1" s_d1 =
      (Except.error (SvcError.http 500 ("Failed to connect: " ++ "boom")), s_d1,
       [Event.connectFail "d1"]) ∧
     (provAllOk.connect cfg1 = Except.ok () →
       get_or_create_connection provAllOk "d1" s_d1 =
         (Except.ok s_d1.nextHandle,
          { s_d1 with active := insertA "d1" s_d1.nextHandle s_d1.active,
                      nextHandle := s_d1.nextHandle + 1 },
          [Event.connectOk "d1" s_d1.nextHandle]))) :=
  ⟨rfl, rfl, rfl,
   C5_failed_connect_not_cached provConnFail provAllOk "d1" cfg1 s_d1 "boom"
     rfl rfl rfl⟩

/-- Folding a device list with fresh identifiers into an association list
by insertion appends one entry per device, in scan order. -/
theorem foldl_insertA_fresh (devs : List BaseConfig) :
    ∀ acc : List (String × BaseConfig),
      (∀ c ∈ devs, lookupA c.identifier acc = none) →
      (devs.map (fun c => c.identifier)).Nodup →
      devs.foldl (fun d c => insertA c.identifier c d) acc =
        acc ++ devs.map (fun c => (c.identifier, c)) := by
  induction devs with
  | nil => intro acc _ _; simp
  | cons c rest ih =>
    intro acc hnone hnd
    simp only [List.map_cons, List.nodup_cons] at hnd
    simp only [List.foldl_cons]
    rw [insertA_of_lookupA_none c.identifier c acc (hnone c (by simp))]
    rw [ih (acc ++ [(c.identifier, c)]) ?_ hnd.2]
    · simp
    · intro c2 hc2
      rw [lookupA_append_none c2.identifier acc [(c.identifier, c)]
          (hnone c2 (by simp [hc2]))]
      have hne : ¬ c.identifier = c2.identifier := by
        intro hcontra
        exact hnd.1 (hcontra ▸ List.mem_map_of_mem (fun x => x.identifier) hc2)
      simp [lookupA, hne]

/-- C6: a successful rescan replaces the whole registry with exactly the
latest scan's descriptors keyed by identifier, returning one DeviceInfo
per scanned device, and leaves the connection pool (and the pairing
sessions) untouched; afterwards, when the scanned identifiers are
distinct, listing the known devices returns exactly the scanned
descriptors. -/
theorem C6_rescan_replaces_registry (p : Provider) (s : ServiceState)
    (devs : List BaseConfig) (hscan : p.scan = Except.ok devs) :
    rescan_devices p s =
      (Except.ok (devs.map (fun c => mkScanInfo c s.active)),
       { discovered := devs.foldl (fun d c => insertA c.identifier c d) [],
         active := s.active, pairings := s.pairings,
         nextHandle := s.nextHandle }) ∧
    ((devs.map (fun c => c.identifier)).Nodup →
      list_devices (rescan_devices p s).2 =
        devs.map (fun c => mkScanInfo c s.active)) := by
  have h1 : rescan_devices p s =
      (Except.ok (devs.map (fun c => mkScanInfo c s.active)),
       { discovered := devs.foldl (fun d c => insertA c.identifier c d) [],
         active := s.active, pairings := s.pairings,
         nextHandle := s.nextHandle }) := by
    simp [rescan_devices, hscan]
  refine ⟨h1, fun hnd => ?_⟩
  rw [h1]
  simp only [list_devices]
  rw [foldl_insertA_fresh devs [] (fun c _ => rfl) hnd]
  simp only [List.nil_append, List.map_map]
  exact List.map_congr_left (fun c _ => rfl)

/-- A state holding a stale registry and a live connection to a device
that the next scan will no longer report. -/
def s_prior : ServiceState :=
  { discovered := [("old", cfgOld)], active := [("old", 7)], pairings := [],
    nextHandle := 8 }

/-- Witness for C6: rescanning over a registry holding a different device
than the scan reports, with a live connection to the departed device. -/
theorem C6_rescan_witness :
    provAllOk.scan = Except.ok [cfg1] ∧
    (rescan_devices provAllOk s_prior =
      (Except.ok ([cfg1].map (fun c => mkScanInfo c s_prior.active)),
       { discovered := [cfg1].foldl (fun d c => insertA c.identifier c d) [],
         active := s_prior.active, pairings := s_prior.pairings,
         nextHandle := s_prior.nextHandle }) ∧
     (([cfg1].map (fun c => c.identifier)).Nodup →
       list_devices (rescan_devices provAllOk s_prior).2 =
         [cfg1].map (fun c => mkScanInfo c s_prior.active))) :=
  ⟨rfl, C6_rescan_replaces_registry provAllOk s_prior [cfg1] rfl⟩

/-- C7: for an identifier known to the registry, starting a pairing whose
provider handshake begins successfully stores the session; finishing it
with a provider session that reports a successful handshake returns the
issued credentials and deletes the session, so an immediately following
second finish fails with the 400 no-active-session error. -/
theorem C7_pairing_success_flow (p : Provider) (id protocol pin : String)
    (cfg : BaseConfig) (sess : PairingSession) (s : ServiceState)
    (hreg : lookupA id s.discovered = some cfg)
    (hpair : p.pairBegin cfg
      (if protocol.toLower = "companion" then Protocol.Companion
       else Protocol.AirPlay) = Except.ok sess)
    (hpin : sess.pinRaises = none) (hfin : sess.finishRaises = none)
    (hp : sess.has_paired = true) :
    start_pairing p id protocol s =
      (Except.ok
        { message := "Pairing started with " ++ protocol ++
            " protocol. Enter the PIN shown on your Apple TV.",
          protocol := protocol, requires_pin := true },
       { s with pairings := insertA id sess s.pairings }) ∧
    finish_pairing id pin { s with pairings := insertA id sess s.pairings } =
      (Except.ok { message := "Pairing successful",
                   credentials := sess.credentials },
       { s with pairings := eraseA id (insertA id sess s.pairings) }) ∧
    lookupA id (eraseA id (insertA id sess s.pairings)) = none ∧
    finish_pairing id pin
        { s with pairings := eraseA id (insertA id sess s.pairings) } =
      (Except.error (SvcError.http 400 "No active pairing session"),
       { s with pairings := eraseA id (insertA id sess s.pairings) }) := by
  refine ⟨?_, ?_, lookupA_eraseA_self id (insertA id sess s.pairings), ?_⟩
  · simp [start_pairing, hreg, hpair]
  · simp [finish_pairing, lookupA_insertA_self, hpin, hfin, hp]
  · simp [finish_pairing, lookupA_eraseA_self]

/-- Witness for C7: the full start-finish-finish pairing flow on the
sample device with the successful sample session. -/
theorem C7_pairing_success_witness :
    lookupA "d1" s_d1.discovered = some cfg1 ∧
    (start_pairing provAllOk "d1" "companion" s_d1 =
      (Except.ok
        { message := "Pairing started with " ++ "companion" ++
            " protocol. Enter the PIN shown on your Apple TV.",
          protocol := "companion", requires_pin := true },
       { s_d1 with pairings := insertA "d1" sampleSession s_d1.pairings }) ∧
     finish_pairing "d1" "1234"
        { s_d1 with pairings := insertA "d1" sampleSession s_d1.pairings } =
      (Except.ok { message := "Pairing successful",
                   credentials := sampleSession.credentials },
       { s_d1 with
           pairings := eraseA "d1" (insertA "d1" sampleSession s_d1.pairings) }) ∧
     lookupA "d1" (eraseA "d1" (insertA "d1" sampleSession s_d1.pairings)) = none ∧
     finish_pairing "d1" "1234"
        { s_d1 with
            pairings := eraseA "d1" (insertA "d1" sampleSession s_d1.pairings) } =
      (Except.error (SvcError.http 400 "No active pairing session"),
       { s_d1 with
           pairings := eraseA "d1" (insertA "d1" sampleSession s_d1.pairings) })) :=
  ⟨rfl, C7_pairing_success_flow provAllOk "d1" "companion" "1234" cfg1
    sampleSession s_d1 rfl rfl rfl rfl rfl⟩

/-- The app sub-query never touches the playback portion of a snapshot. -/
theorem app_step_preserves_playback (p : Provider) (atv : Nat)
    (r : NowPlayingInfo) :
    (app_step p atv r).title = r.title ∧
    (app_step p atv r).artist = r.artist ∧
    (app_step p atv r).album = r.album ∧
    (app_step p atv r).genre = r.genre ∧
    (app_step p atv r).media_type = r.media_type ∧
    (app_step p atv r).device_state = r.device_state ∧
    (app_step p atv r).position = r.position ∧
    (app_step p atv r).total_time = r.total_time ∧
    (app_step p atv r).repeat_mode = r.repeat_mode ∧
    (app_step p atv r).shuffle = r.shuffle := by
  by_cases hf : p.featureAvailable atv FeatureName.App
  · cases hq : p.queryApp atv with
    | error m => simp [app_step, hf, hq]
    | ok oa =>
      cases oa with
      | none => simp [app_step, hf, hq]
      | some a => simp [app_step, hf, hq]
  · simp [app_step, hf]

/-- C8: once the connection is acquired, the snapshot call always
succeeds — its result is the composition of the two independent
sub-queries; when the playback query succeeds and the app query is
attempted but raises, the playback fields are populated and the app
fields absent; and when the playback query raises, all playback fields
of the returned snapshot are absent with the playback state unknown. -/
theorem C8_snapshot_degrades (p : Provider) (device_id : String)
    (s : ServiceState) (h : Nat) (s1 : ServiceState) (tr : List Event)
    (hacq : get_or_create_connection p device_id s = (Except.ok h, s1, tr)) :
    get_now_playing p device_id s =
      (Except.ok (app_step p h (playing_step p h { device_id := device_id })),
       s1, tr) ∧
    (∀ cur m, p.queryPlaying h = Except.ok cur →
      p.featureAvailable h FeatureName.App = true →
      p.queryApp h = Except.error m →
      get_now_playing p device_id s =
        (Except.ok
          { device_id := device_id, title := cur.title, artist := cur.artist,
            album := cur.album, genre := cur.genre,
            media_type := cur.media_type,
            device_state := cur.device_state.getD "unknown",
            position := cur.position, total_time := cur.total_time,
            repeat_mode := cur.repeat_mode, shuffle := cur.shuffle,
            app_name := none, app_id := none }, s1, tr)) ∧
    (∀ m, p.queryPlaying h = Except.error m →
      (app_step p h (playing_step p h { device_id := device_id })).title = none ∧
      (app_step p h (playing_step p h { device_id := device_id })).artist = none ∧
      (app_step p h (playing_step p h { device_id := device_id })).album = none ∧
      (app_step p h (playing_step p h { device_id := device_id })).genre = none ∧
      (app_step p h (playing_step p h { device_id := device_id })).media_type = none ∧
      (app_step p h (playing_step p h { device_id := device_id })).device_state = "unknown" ∧
      (app_step p h (playing_step p h { device_id := device_id })).position = none ∧
      (app_step p h (playing_step p h { device_id := device_id })).total_time = none ∧
      (app_step p h (playing_step p h { device_id := device_id })).repeat_mode = none ∧
      (app_step p h (playing_step p h { device_id := device_id })).shuffle = none) := by
  refine ⟨by simp [get_now_playing, hacq], ?_, ?_⟩
  · intro cur m hqp hfa hqa
    simp [get_now_playing, hacq, playing_step, app_step, hqp, hfa, hqa]
  · intro m hm
    have hps : playing_step p h { device_id := device_id } =
        { device_id := device_id } := by
      simp [playing_step, hm]
    have hpre := app_step_preserves_playback p h
      (playing_step p h { device_id := device_id })
    rw [hps] at hpre ⊢
    simpa using hpre

/-- Provider whose running-app query raises while everything else works. -/
def provAppFail : Provider :=
  { provAllOk with queryApp := fun _ => Except.error "app query failed" }

/-- Witness for C8: a snapshot on the sample device whose app query
raises but whose playback query succeeds. -/
theorem C8_snapshot_witness :
    get_or_create_connection provAppFail "d1" s_d1 =
      (Except.ok 0, s_d1_connected, [Event.connectOk "d1" 0]) ∧
    (get_now_playing provAppFail "d1" s_d1 =
      (Except.ok (app_step provAppFail 0
          (playing_step provAppFail 0 { device_id := "d1" })),
       s_d1_connected, [Event.connectOk "d1" 0]) ∧
     (∀ cur m, provAppFail.queryPlaying 0 = Except.ok cur →
        provAppFail.featureAvailable 0 FeatureName.App = true →
        provAppFail.queryApp 0 = Except.error m →
        get_now_playing provAppFail "d1" s_d1 =
          (Except.ok
            { device_id := "d1", title := cur.title, artist := cur.artist,
              album := cur.album, genre := cur.genre,
              media_type := cur.media_type,
              device_state := cur.device_state.getD "unknown",
              position := cur.position, total_time := cur.total_time,
              repeat_mode := cur.repeat_mode, shuffle := cur.shuffle,
              app_name := none, app_id := none },
           s_d1_connected, [Event.connectOk "d1" 0])) ∧
     (∀ m, provAppFail.queryPlaying 0 = Except.error m →
        (app_step provAppFail 0
          (playing_step provAppFail 0 { device_id := "d1" })).title = none ∧
        (app_step provAppFail 0
          (playing_step provAppFail 0 { device_id := "d1" })).artist = none ∧
        (app_step provAppFail 0
          (playing_step provAppFail 0 { device_id := "d1" })).album = none ∧
        (app_step provAppFail 0
          (playing_step provAppFail 0 { device_id := "d1" })).genre = none ∧
        (app_step provAppFail 0
          (playing_step provAppFail 0 { device_id := "d1" })).media_type = none ∧
        (app_step provAppFail 0
          (playing_step provAppFail 0 { device_id := "d1" })).device_state = "unknown" ∧
        (app_step provAppFail 0
          (playing_step provAppFail 0 { device_id := "d1" })).position = none ∧
        (app_step provAppFail 0
          (playing_step provAppFail 0 { device_id := "d1" })).total_time = none ∧
        (app_step provAppFail 0
          (playing_step provAppFail 0 { device_id := "d1" })).repeat_mode = none ∧
        (app_step provAppFail 0
          (playing_step provAppFail 0 { device_id := "d1" })).shuffle = none)) :=
  ⟨rfl, C8_snapshot_degrades provAppFail "d1" s_d1 0 s_d1_connected
    [Event.connectOk "d1" 0] rfl⟩

/-- C9: for every pool state whose live handles are distinct, closing all
connections leaves the pool empty without touching the registry or the
pairing sessions, never propagates any close failure (its result type
carries no error), emits exactly the list of close calls in pool order —
one per entry regardless of whether the provider's close raises — and
hence calls close exactly once on each handle that was live. -/
theorem C9_close_all_closes_each_once (p : Provider) (s : ServiceState)
    (hnd : (s.active.map Prod.snd).Nodup) :
    (close_all_connections p s).1 = { s with active := [] } ∧
    (close_all_connections p s).2 = s.active.map (fun pr => Event.close pr.2) ∧
    (∀ pr ∈ s.active,
      ((close_all_connections p s).2.count (Event.close pr.2)) = 1) := by
  have htr : (close_all_connections p s).2 =
      s.active.map (fun pr => Event.close pr.2) := by
    simp only [close_all_connections]
    exact List.map_congr_left (fun pr _ => by cases p.close pr.2 <;> rfl)
  refine ⟨rfl, htr, fun pr hpr => ?_⟩
  rw [htr]
  have hinj : Function.Injective Event.close := by
    intro a b hab
    injection hab
  have hmap : s.active.map (fun pr => Event.close pr.2) =
      (s.active.map Prod.snd).map Event.close := by
    rw [List.map_map]
    rfl
  rw [hmap, List.count_map_of_injective (s.active.map Prod.snd)
    Event.close hinj pr.2]
  exact List.count_eq_one_of_mem hnd (List.mem_map_of_mem Prod.snd hpr)

/-- Provider whose close of handle 0 raises. -/
def provCloseBoom : Provider :=
  { provAllOk with
    close := fun h => if h = 0 then Except.error "close failed" else Except.ok () }

/-- A pool holding two distinct live handles. -/
def s_two_conns : ServiceState :=
  { discovered := [("d1", cfg1)], active := [("a", 0), ("b", 1)],
    pairings := [], nextHandle := 2 }

/-- Witness for C9: closing a pool of two handles where the close of
handle 0 raises. -/
theorem C9_close_all_witness :
    (s_two_conns.active.map Prod.snd).Nodup ∧
    provCloseBoom.close 0 = Except.error "close failed" ∧
    ((close_all_connections provCloseBoom s_two_conns).1 =
      { s_two_conns with active := [] } ∧
     (close_all_connections provCloseBoom s_two_conns).2 =
       s_two_conns.active.map (fun pr => Event.close pr.2) ∧
     (∀ pr ∈ s_two_conns.active,
       ((close_all_connections provCloseBoom s_two_conns).2.count
         (Event.close pr.2)) = 1)) :=
  ⟨by decide, rfl,
   C9_close_all_closes_each_once provCloseBoom s_two_conns (by decide)⟩

/-- C10: on an acquired connection whose app-list capability is
unavailable, listing apps succeeds with an empty list and an explanatory
message, whereas launching an app on a connection whose launch-app
capability is unavailable fails with the 400 not-supported error. -/
theorem C10_list_empty_launch_fails (p : Provider) (device_id app_id : String)
    (s : ServiceState) (h : Nat) (s1 : ServiceState) (tr : List Event)
    (hacq : get_or_create_connection p device_id s = (Except.ok h, s1, tr))
    (hlist : p.featureAvailable h FeatureName.AppList = false)
    (hlaunch : p.featureAvailable h FeatureName.LaunchApp = false) :
    list_apps p device_id s =
      (Except.ok { apps := [],
                   message := some "App listing not supported on this device" },
       s1, tr) ∧
    launch_app p device_id app_id s =
      (Except.error (SvcError.http 400 "App launching not supported"), s1, tr) := by
  constructor
  · simp [list_apps, hacq, hlist]
  · simp [launch_app, hacq, hlaunch]

/-- Provider advertising no app-related capabilities. -/
def provNoAppFeatures : Provider :=
  { provAllOk with featureAvailable := fun _ _ => false }

/-- Witness for C10: listing and launching on the sample device whose
connection advertises neither app capability. -/
theorem C10_list_launch_witness :
    get_or_create_connection provNoAppFeatures "d1" s_d1 =
      (Except.ok 0, s_d1_connected, [Event.connectOk "d1" 0]) ∧
    provNoAppFeatures.featureAvailable 0 FeatureName.AppList = false ∧
    provNoAppFeatures.featureAvailable 0 FeatureName.LaunchApp = false ∧
    (list_apps provNoAppFeatures "d1" s_d1 =
      (Except.ok { apps := [],
                   message := some "App listing not supported on this device" },
       s_d1_connected, [Event.connectOk "d1" 0]) ∧
     launch_app provNoAppFeatures "d1" "com.netflix.Netflix" s_d1 =
      (Except.error (SvcError.http 400 "App launching not supported"),
       s_d1_connected, [Event.connectOk "d1" 0])) :=
  ⟨rfl, rfl, rfl,
   C10_list_empty_launch_fails provNoAppFeatures "d1" "com.netflix.Netflix"
     s_d1 0 s_d1_connected [Event.connectOk "d1" 0] rfl rfl rfl⟩
